import Mathlib

/-!
Verification of the real-time connection registry and message-broadcast
protocol of `yannmazita/create-web-app`.

The embedding covers:
* the wire envelope and its pydantic validation (`app/models.py`:
  `Token`, `AppError`, `AppStats`, `WebsocketMessage`);
* the connection registry `Connections` (imported by
  `app/routers/websockets.py` from `app.websockets`, a module whose file is
  not in the source tree; it is modelled from the spec, section 4.1);
* the session handlers and the two websocket endpoints of
  `app/routers/websockets.py`.

Python `await` calls on a single connection's task happen in program order,
so each handler is embedded as a pure function from the registry state and
the inbound event to the new registry state plus the list of
(handle, message) writes it issues, in order.
-/

namespace CreateWebApp

/-! ### JSON documents

An inbound text frame, after the transport delivered it, either fails JSON
parsing or is a JSON document.  Numbers are modelled as integers: every
payload field of the protocol is an `int` or a string, so fractional
numbers only ever occur as invalid input, which `JsonValue.arr`-like
non-object shapes already cover.
-/

inductive JsonValue where
  | null
  | bool (b : Bool)
  | int (n : Int)
  | str (s : String)
  | arr (elems : List JsonValue)
  | obj (fields : List (String × JsonValue))

/-- A raw inbound frame: either text that is not parseable as JSON, or the
parsed JSON document. -/
inductive Frame where
  | notJson
  | json (v : JsonValue)

/-- First-match lookup of a key in a JSON object's field list. -/
def lookupField (fields : List (String × JsonValue)) (key : String) : Option JsonValue :=
  match fields with
  | [] => none
  | (k, v) :: rest => if k = key then some v else lookupField rest key

/-! ### Pydantic models (`app/models.py`) -/

/-- `class Token(BaseModel)`: `access_token: str | None`,
`token_type: str | None` (both fields required, both nullable). -/
structure Token where
  access_token : Option String
  token_type : Option String
deriving DecidableEq

/-- `class AppError(BaseModel)`: `error: str`. -/
structure AppError where
  error : String
deriving DecidableEq

/-- `class AppStats(BaseModel)`: `active_users: int`. -/
structure AppStats where
  active_users : Int
deriving DecidableEq

/-- The tagged union `Token | AppError | AppStats` used by
`WebsocketMessage.data`. -/
inductive WsData where
  | token (t : Token)
  | appError (e : AppError)
  | appStats (s : AppStats)
deriving DecidableEq

/-- `class WebsocketMessage(BaseModel)`: `action: str`,
`data: Token | AppError | AppStats | None = None`. -/
structure WebsocketMessage where
  action : String
  data : Option WsData := none
deriving DecidableEq

/-- Validation of a `str | None` field: a JSON string or JSON null.
(Pydantic coercions between unrelated JSON types are not part of the
protocol and do not occur for these shapes.) -/
def validateOptStr (v : JsonValue) : Option (Option String) :=
  match v with
  | .null => some none
  | .str s => some (some s)
  | _ => none

/-- Pydantic validation of a JSON value against `Token`: an object whose
required keys `access_token` and `token_type` are each a string or null;
unknown keys are ignored. -/
def validateToken (v : JsonValue) : Option Token :=
  match v with
  | .obj fields =>
    match lookupField fields "access_token", lookupField fields "token_type" with
    | some a, some t =>
      match validateOptStr a, validateOptStr t with
      | some a2, some t2 => some ⟨a2, t2⟩
      | _, _ => none
    | _, _ => none
  | _ => none

/-- Pydantic validation of a JSON value against `AppError`: an object whose
required key `error` is a string; unknown keys are ignored. -/
def validateAppError (v : JsonValue) : Option AppError :=
  match v with
  | .obj fields =>
    match lookupField fields "error" with
    | some (.str s) => some ⟨s⟩
    | _ => none
  | _ => none

/-- Pydantic validation of a JSON value against `AppStats`: an object whose
required key `active_users` is an integer; unknown keys are ignored. -/
def validateAppStats (v : JsonValue) : Option AppStats :=
  match v with
  | .obj fields =>
    match lookupField fields "active_users" with
    | some (.int n) => some ⟨n⟩
    | _ => none
  | _ => none

/-- Validation of the `data` field's union
`Token | AppError | AppStats | None`: JSON null is the `None` member;
otherwise the value must match one of the three model variants (acceptance
is what the claims depend on, so the order in which members are tried only
fixes which variant an ambiguous object is reported as). -/
def validateDataField (v : JsonValue) : Option (Option WsData) :=
  match v with
  | .null => some none
  | _ =>
    match validateToken v with
    | some t => some (some (.token t))
    | none =>
      match validateAppError v with
      | some e => some (some (.appError e))
      | none =>
        match validateAppStats v with
        | some s => some (some (.appStats s))
        | none => none

/-- `WebsocketMessage.model_validate_json(raw_message)`
(`app/routers/websockets.py`, line 121): the frame must parse as a JSON
object; `action` is required and must be a string (pydantic's `str` accepts
the empty string); `data` is optional, defaulting to `None`, and when
present must be null or match a union member; unknown top-level keys are
ignored.  On failure the result is pydantic's `ValidationError` message. -/
def model_validate_json (f : Frame) : Except String WebsocketMessage :=
  match f with
  | .notJson => .error "Invalid JSON: expected value"
  | .json v =>
    match v with
    | .obj fields =>
      match lookupField fields "action" with
      | some (.str a) =>
        match lookupField fields "data" with
        | none => .ok { action := a, data := none }
        | some d =>
          match validateDataField d with
          | some dd => .ok { action := a, data := dd }
          | none => .error "Input tag not found using discriminator for data"
      | some _ => .error "Input should be a valid string: action"
      | none => .error "Field required: action"
    | _ => .error "Input should be a valid dictionary or object"

/-- `true` exactly when validation succeeded. -/
def validationOk (r : Except String WebsocketMessage) : Bool :=
  match r with
  | .ok _ => true
  | .error _ => false

/-! ### The connection registry

Modelled from the spec: `app/routers/websockets.py` does
`from app.websockets import Connections`, but `app/websockets.py` is not in
the source tree — only its callers are.  Spec section 4.1 gives the
contract: a mapping identity → connection handle with unique keys;
`connect` inserts or silently replaces and never fails; `disconnect` of an
absent identity is a no-op; `send` writes one serialized message to the
mapped handle and is a no-op when the identity is absent; `broadcast`
writes to every currently-registered handle; `count`
(`get_number_of_connections` at the call sites) is the current number of
registered identities.  Identities and handles are opaque, so both are
embedded as `Nat`.  The writes a call issues are returned as an explicit
list of (handle, message) pairs, in order.
-/

abbrev Identity := Nat
abbrev Handle := Nat

/-- Modelled from the spec: the registry state of one population, the
mapping `members : identity → connection handle` with unique keys
(section 3, "Registry").  Embedded as an association list; dict-update
semantics keep at most one entry per key. -/
structure Connections where
  members : List (Identity × Handle)
deriving DecidableEq

/-- First-match lookup of an identity among the registry entries. -/
def lookupId (ms : List (Identity × Handle)) (id : Identity) : Option Handle :=
  match ms with
  | [] => none
  | (k, h) :: rest => if k = id then some h else lookupId rest id

/-- Modelled from the spec: `connect(identity, handle)` "inserts/replaces the
mapping; no return value; never fails" (section 4.1).  The call sites pass
the handle first (`connections.connect(websocket, user_id)`), so the
embedding keeps that argument order.  Dict-update semantics: any prior
entry for the identity is dropped and the new binding added. -/
def Connections.connect (c : Connections) (handle : Handle) (id : Identity) : Connections :=
  ⟨(id, handle) :: c.members.filter (fun m => decide (m.1 ≠ id))⟩

/-- Modelled from the spec: `disconnect(identity)` "removes the mapping if
present; absent-identity is a no-op, not an error" (section 4.1). -/
def Connections.disconnect (c : Connections) (id : Identity) : Connections :=
  ⟨c.members.filter (fun m => decide (m.1 ≠ id))⟩

/-- Modelled from the spec: `send(identity, message)` writes the message to
the handle mapped to the identity, and is a no-op when no mapping exists
(section 4.1). -/
def Connections.send (c : Connections) (id : Identity) (m : WebsocketMessage) :
    List (Handle × WebsocketMessage) :=
  match lookupId c.members id with
  | some h => [(h, m)]
  | none => []

/-- Modelled from the spec: `broadcast(message)` writes the message to every
currently-registered handle (section 4.1). -/
def Connections.broadcast (c : Connections) (m : WebsocketMessage) :
    List (Handle × WebsocketMessage) :=
  c.members.map (fun p => (p.2, m))

/-- Modelled from the spec: `count()` "returns the current number of
registered identities" (section 4.1); called
`get_number_of_connections` at the call sites in
`app/routers/websockets.py`. -/
def Connections.get_number_of_connections (c : Connections) : Nat :=
  c.members.length

/-- Registry well-formedness: the identity keys are pairwise distinct
(spec section 3: "keys unique"). -/
def Connections.wf (c : Connections) : Prop :=
  (c.members.map Prod.fst).Nodup

/-! ### Session handlers (`app/routers/websockets.py`) -/

/-- The stats envelope built at lines 73-74, 87-88 and 100-101:
`WebsocketMessage(action="server_stats", data=AppStats(active_users=
connections.get_number_of_connections()))`. -/
def statsMessage (c : Connections) : WebsocketMessage :=
  { action := "server_stats", data := some (.appStats ⟨(c.get_number_of_connections : Int)⟩) }

/-- The error envelope built at lines 124-125:
`WebsocketMessage(action="error", data=AppError(error=str(e)))`. -/
def errorMessage (e : String) : WebsocketMessage :=
  { action := "error", data := some (.appError ⟨e⟩) }

/-- `verify_websocket_token(websocket)` (lines 21-38): the body of the try
block is `pass` — no check runs, so no `ValidationError` can be raised and
the `websocket.close()` in the except branch is unreachable.  The token the
docstring speaks of (the first message sent by the user) is never read, so
it enters the embedding only as an ignored argument.  `true` means the
connection is kept open. -/
def verify_websocket_token (_token : Option Frame) : Bool :=
  true

/-- `on_user_connect(websocket, user_id)` (lines 41-50): registers the
connection in `user_connections`, then calls `verify_websocket_token`.
Returns the new registry, the writes issued (none), and whether the
connection was kept open. -/
def on_user_connect (c : Connections) (handle : Handle) (user_id : Identity)
    (token : Option Frame) : Connections × List (Handle × WebsocketMessage) × Bool :=
  let c1 := c.connect handle user_id
  (c1, [], verify_websocket_token token)

/-- `on_user_disconnect(websocket, user_id)` (lines 53-61): removes the
identity from `user_connections`; nothing is sent. -/
def on_user_disconnect (c : Connections) (user_id : Identity) :
    Connections × List (Handle × WebsocketMessage) :=
  (c.disconnect user_id, [])

/-- `on_client_connect(websocket, client_id)` (lines 64-75): registers the
connection in `client_connections`, then broadcasts a stats envelope whose
count is read after the insertion. -/
def on_client_connect (c : Connections) (handle : Handle) (client_id : Identity) :
    Connections × List (Handle × WebsocketMessage) :=
  let c1 := c.connect handle client_id
  (c1, c1.broadcast (statsMessage c1))

/-- `on_client_disconnect(websocket, client_id)` (lines 78-89): removes the
identity from `client_connections`, then broadcasts a stats envelope whose
count is read after the removal. -/
def on_client_disconnect (c : Connections) (client_id : Identity) :
    Connections × List (Handle × WebsocketMessage) :=
  let c1 := c.disconnect client_id
  (c1, c1.broadcast (statsMessage c1))

/-- `send_server_stats(id, connections)` (lines 92-102): sends the current
stats envelope to the one identity, via `send`, not `broadcast`. -/
def send_server_stats (c : Connections) (id : Identity) :
    List (Handle × WebsocketMessage) :=
  c.send id (statsMessage c)

/-- One iteration of the receive loop of `user_endpoint` (lines 137-150):
`validate_message` (lines 105-127) receives and validates a frame, sending
an error envelope back through `user_connections.send` on failure; a valid
frame is dispatched by action, `"server_stats"` being the only handled one.
The registry is returned unchanged in every branch. -/
def user_endpoint_loop (c : Connections) (user_id : Identity) (f : Frame) :
    Connections × List (Handle × WebsocketMessage) :=
  match model_validate_json f with
  | .error e => (c, c.send user_id (errorMessage e))
  | .ok message =>
    if message.action = "server_stats" then
      (c, send_server_stats c user_id)
    else
      (c, [])

/-- One iteration of the receive loop of `client_endpoint` (lines 163-173):
textually the same loop body as `user_endpoint`, against
`client_connections`. -/
def client_endpoint_loop (c : Connections) (client_id : Identity) (f : Frame) :
    Connections × List (Handle × WebsocketMessage) :=
  match model_validate_json f with
  | .error e => (c, c.send client_id (errorMessage e))
  | .ok message =>
    if message.action = "server_stats" then
      (c, send_server_stats c client_id)
    else
      (c, [])

/-- The session-loop state of spec section 4.3 after the events so far:
`active` while the `while True` loop is running, `closed` once
`WebSocketDisconnect` was caught. -/
inductive SessionState where
  | active
  | closed
deriving DecidableEq

/-- One inbound event on an established session: a received frame, or the
transport's disconnect signal (`WebSocketDisconnect`). -/
inductive Inbound where
  | frame (f : Frame)
  | disconnect

/-- The observable outcome of handling one inbound event. -/
structure StepResult where
  conns : Connections
  sent : List (Handle × WebsocketMessage)
  state : SessionState
deriving DecidableEq

/-- One event of the established `user_endpoint` session (lines 130-153): a
received frame runs one loop iteration and stays in the loop; the
disconnect signal runs `on_user_disconnect` and leaves it. -/
def user_endpoint_step (c : Connections) (user_id : Identity) (ev : Inbound) : StepResult :=
  match ev with
  | .frame f =>
    let r := user_endpoint_loop c user_id f
    ⟨r.1, r.2, .active⟩
  | .disconnect =>
    let r := on_user_disconnect c user_id
    ⟨r.1, r.2, .closed⟩

/-- One event of the established `client_endpoint` session (lines 156-176):
a received frame runs one loop iteration and stays in the loop; the
disconnect signal runs `on_client_disconnect` and leaves it. -/
def client_endpoint_step (c : Connections) (client_id : Identity) (ev : Inbound) : StepResult :=
  match ev with
  | .frame f =>
    let r := client_endpoint_loop c client_id f
    ⟨r.1, r.2, .active⟩
  | .disconnect =>
    let r := on_client_disconnect c client_id
    ⟨r.1, r.2, .closed⟩

/-- A run of the established `user_endpoint` session over a list of inbound
events, in order, accumulating the writes; the loop stops at the first
disconnect signal. -/
def user_session_run (c : Connections) (user_id : Identity) :
    List Inbound → Connections × List (Handle × WebsocketMessage) × SessionState
  | [] => (c, [], .active)
  | ev :: rest =>
    let r := user_endpoint_step c user_id ev
    match r.state with
    | .closed => (r.conns, r.sent, .closed)
    | .active =>
      let rec2 := user_session_run r.conns user_id rest
      (rec2.1, r.sent ++ rec2.2.1, rec2.2.2)

/-! ### Acceptance condition of claim C7, stated in the spec's words -/

/-- Whether a JSON value matches one of the three declared payload variants
of the envelope's `data` union (auth-token, error, stats). -/
def matchesDeclaredVariant (v : JsonValue) : Bool :=
  (validateToken v).isSome || (validateAppError v).isSome || (validateAppStats v).isSome

/-- The `data` part of C7's acceptance condition, in the spec's words: the
`data` field "is absent, null, or matches one of the declared payload
variants (auth-token, error, stats)". -/
def dataFieldOk (fields : List (String × JsonValue)) : Bool :=
  match lookupField fields "data" with
  | none => true
  | some .null => true
  | some d => matchesDeclaredVariant d

/-- C7's acceptance condition exactly as claimed: the frame "parses as a
JSON object whose action field is a present, non-empty string" and whose
data field passes `dataFieldOk`.  Unknown top-level fields play no role. -/
def claimAcceptance (f : Frame) : Bool :=
  match f with
  | .notJson => false
  | .json (.obj fields) =>
    (match lookupField fields "action" with
      | some (.str a) => decide (a ≠ "")
      | _ => false) && dataFieldOk fields
  | .json _ => false

/-- C7's acceptance condition with the one correction the code forces: the
`action` field must be a present string, but may be empty (pydantic's
`str` does not reject `""`).  Everything else is as claimed. -/
def amendedAcceptance (f : Frame) : Bool :=
  match f with
  | .notJson => false
  | .json (.obj fields) =>
    (match lookupField fields "action" with
      | some (.str _) => true
      | _ => false) && dataFieldOk fields
  | .json _ => false

/-! ### Helper lemmas -/

theorem validateDataField_isSome (d : JsonValue) :
    (validateDataField d).isSome =
      (match d with | .null => true | _ => matchesDeclaredVariant d) := by
  cases d with
  | null => rfl
  | bool b => simp [validateDataField, matchesDeclaredVariant, validateToken, validateAppError, validateAppStats]
  | int n => simp [validateDataField, matchesDeclaredVariant, validateToken, validateAppError, validateAppStats]
  | str s => simp [validateDataField, matchesDeclaredVariant, validateToken, validateAppError, validateAppStats]
  | arr xs => simp [validateDataField, matchesDeclaredVariant, validateToken, validateAppError, validateAppStats]
  | obj fields =>
    simp only [validateDataField, matchesDeclaredVariant]
    cases h1 : validateToken (.obj fields) with
    | some t => simp [h1]
    | none =>
      cases h2 : validateAppError (.obj fields) with
      | some e => simp [h2]
      | none =>
        cases h3 : validateAppStats (.obj fields) with
        | some s => simp [h3]
        | none => simp [h3]

theorem filter_ne_idem (ms : List (Identity × Handle)) (id : Identity) :
    (ms.filter (fun m => decide (m.1 ≠ id))).filter (fun m => decide (m.1 ≠ id))
      = ms.filter (fun m => decide (m.1 ≠ id)) := by
  rw [List.filter_filter]
  simp

theorem connect_connect_members (c : Connections) (id : Identity) (h1 h2 : Handle) :
    ((c.connect h1 id).connect h2 id).members
      = (id, h2) :: c.members.filter (fun m => decide (m.1 ≠ id)) := by
  show (id, h2) :: ((id, h1) :: c.members.filter (fun m => decide (m.1 ≠ id))).filter
      (fun m => decide (m.1 ≠ id)) = _
  rw [List.filter_cons_of_neg (by simp)]
  rw [filter_ne_idem]

/-! ### The claims -/

/-- C1: an inbound raw frame that fails envelope validation makes the
session loop send exactly one error-variant envelope back to the connection
that sent it (the handle the sender's identity is registered under), leaves
the registry contents and the session state unchanged, and continues the
loop: a run that starts with the failing frame produces the error write
followed by exactly the writes, registry and state the run without the
failing frame produces — so the next valid frame is processed normally and
a validation failure never terminates the connection by itself. -/
theorem user_validation_failure_isolated
    (c : Connections) (uid : Identity) (hnd : Handle) (f : Frame) (e : String)
    (evs : List Inbound)
    (hval : model_validate_json f = .error e)
    (hmem : lookupId c.members uid = some hnd) :
    user_endpoint_step c uid (.frame f) = ⟨c, [(hnd, errorMessage e)], .active⟩ ∧
    user_session_run c uid (.frame f :: evs)
      = ((user_session_run c uid evs).1,
          (hnd, errorMessage e) :: (user_session_run c uid evs).2.1,
          (user_session_run c uid evs).2.2) := by
  have h1 : user_endpoint_step c uid (.frame f) = ⟨c, [(hnd, errorMessage e)], .active⟩ := by
    simp [user_endpoint_step, user_endpoint_loop, hval, Connections.send, hmem]
  refine ⟨h1, ?_⟩
  simp only [user_session_run, h1]
  simp

theorem user_validation_failure_isolated_witness :
    model_validate_json .notJson = .error "Invalid JSON: expected value" ∧
    lookupId [(0, 5)] 0 = some 5 ∧
    user_endpoint_step ⟨[(0, 5)]⟩ 0 (.frame .notJson)
      = ⟨⟨[(0, 5)]⟩, [(5, errorMessage "Invalid JSON: expected value")], .active⟩ :=
  ⟨rfl, rfl,
    (user_validation_failure_isolated ⟨[(0, 5)]⟩ 0 5 .notJson
      "Invalid JSON: expected value" [] rfl rfl).1⟩

/-- C2: registering a client-population connection is followed by exactly
one stats broadcast to the whole client population: the new registry is the
insertion, the writes go to every handle registered after the insertion
(the newly joined handle among them), every write carries the
`server_stats` envelope whose `active_users` equals the registry count
after the insertion; concretely, after client A (handle 10) connects and
then client B (handle 11) connects, the second broadcast delivers
`active_users = 2` to both A and B. -/
theorem client_connect_stats_broadcast (c : Connections) (hnd : Handle) (cid : Identity) :
    (on_client_connect c hnd cid).1 = c.connect hnd cid ∧
    (on_client_connect c hnd cid).2
      = (c.connect hnd cid).members.map
          (fun p => (p.2, { action := "server_stats",
                            data := some (.appStats
                              ⟨((c.connect hnd cid).get_number_of_connections : Int)⟩) })) ∧
    hnd ∈ (on_client_connect c hnd cid).2.map Prod.fst ∧
    on_client_connect (on_client_connect ⟨[]⟩ 10 0).1 11 1
      = (⟨[(1, 11), (0, 10)]⟩,
          [(11, { action := "server_stats", data := some (.appStats ⟨2⟩) }),
           (10, { action := "server_stats", data := some (.appStats ⟨2⟩) })]) := by
  refine ⟨rfl, rfl, ?_, rfl⟩
  show hnd ∈ ((c.connect hnd cid).members.map
    (fun p => (p.2, statsMessage (c.connect hnd cid)))).map Prod.fst
  rw [List.map_map]
  exact List.mem_map.mpr ⟨(cid, hnd), by simp [Connections.connect], rfl⟩

/-- C3: a valid inbound frame whose action is `"server_stats"` makes the
session loop send exactly one stats-snapshot envelope — action
`"server_stats"`, data `active_users = current registry count` — to the
requesting identity's handle alone, with no other write and no registry
mutation. -/
theorem server_stats_on_demand
    (c : Connections) (uid : Identity) (hnd : Handle) (f : Frame) (m : WebsocketMessage)
    (hval : model_validate_json f = .ok m)
    (ha : m.action = "server_stats")
    (hmem : lookupId c.members uid = some hnd) :
    user_endpoint_step c uid (.frame f)
      = ⟨c, [(hnd, { action := "server_stats",
                     data := some (.appStats ⟨(c.get_number_of_connections : Int)⟩) })],
          .active⟩ := by
  simp [user_endpoint_step, user_endpoint_loop, hval, ha, send_server_stats,
    Connections.send, hmem, statsMessage]

theorem server_stats_on_demand_witness :
    model_validate_json (.json (.obj [("action", .str "server_stats")]))
      = .ok { action := "server_stats" } ∧
    lookupId [(0, 7)] 0 = some 7 ∧
    user_endpoint_step ⟨[(0, 7)]⟩ 0 (.frame (.json (.obj [("action", .str "server_stats")])))
      = ⟨⟨[(0, 7)]⟩, [(7, { action := "server_stats", data := some (.appStats ⟨1⟩) })], .active⟩ :=
  ⟨rfl, rfl,
    server_stats_on_demand ⟨[(0, 7)]⟩ 0 7 (.json (.obj [("action", .str "server_stats")]))
      { action := "server_stats" } rfl rfl rfl⟩

/-- C4: the transport disconnect signal on a client-population session
deregisters the identity and then broadcasts exactly one stats snapshot to
the handles remaining after the removal, with `active_users` equal to the
count after the removal, ending in the `closed` state; a received frame
never leaves the `active` state, so the disconnect signal is the sole
trigger of the active-to-closed transition.  Concretely, when A (identity
0, handle 10) disconnects while B (identity 1, handle 11) is registered, B
alone receives `active_users = 1`. -/
theorem client_disconnect_stats_broadcast (c : Connections) (cid : Identity) :
    client_endpoint_step c cid .disconnect
      = ⟨c.disconnect cid,
          (c.disconnect cid).members.map
            (fun p => (p.2, { action := "server_stats",
                              data := some (.appStats
                                ⟨((c.disconnect cid).get_number_of_connections : Int)⟩) })),
          .closed⟩ ∧
    (∀ f : Frame, (client_endpoint_step c cid (.frame f)).state = .active) ∧
    client_endpoint_step ⟨[(1, 11), (0, 10)]⟩ 0 .disconnect
      = ⟨⟨[(1, 11)]⟩,
          [(11, { action := "server_stats", data := some (.appStats ⟨1⟩) })], .closed⟩ :=
  ⟨rfl, fun _ => rfl, rfl⟩

/-- C5: the registry keeps at most one live handle per identity:
well-formedness (pairwise-distinct identity keys) is preserved by `connect`
and by `disconnect`, and after `connect(id, h1)` followed by
`connect(id, h2)` the entries for `id` are exactly the one binding to
`h2`, lookup of `id` yields `h2`, and the registry count is unchanged by
the second `connect`. -/
theorem registry_connect_replaces
    (c : Connections) (id : Identity) (h1 h2 : Handle) (hwf : c.wf) :
    (c.connect h1 id).wf ∧
    (c.disconnect id).wf ∧
    ((c.connect h1 id).connect h2 id).members.filter (fun p => decide (p.1 = id))
      = [(id, h2)] ∧
    lookupId ((c.connect h1 id).connect h2 id).members id = some h2 ∧
    ((c.connect h1 id).connect h2 id).get_number_of_connections
      = (c.connect h1 id).get_number_of_connections := by
  refine ⟨?_, ?_, ?_, ?_, ?_⟩
  · unfold Connections.wf Connections.connect at *
    simp only [List.map_cons, List.nodup_cons]
    constructor
    · intro hmem
      rcases List.mem_map.mp hmem with ⟨p, hp, hfst⟩
      have := List.of_mem_filter hp
      simp at this
      exact this hfst
    · exact hwf.sublist (List.Sublist.map Prod.fst (List.filter_sublist c.members))
  · unfold Connections.wf Connections.disconnect at *
    exact hwf.sublist (List.Sublist.map Prod.fst (List.filter_sublist c.members))
  · rw [connect_connect_members]
    rw [List.filter_cons_of_pos (by simp)]
    congr 1
    rw [List.filter_eq_nil_iff]
    intro p hp
    have := List.mem_filter.mp hp |>.2
    simpa using this
  · rw [connect_connect_members]
    simp [lookupId]
  · unfold Connections.get_number_of_connections
    rw [connect_connect_members]
    rfl

theorem registry_connect_replaces_witness :
    (Connections.mk []).wf ∧
    lookupId (((Connections.mk []).connect 1 0).connect 2 0).members 0 = some 2 ∧
    Connections.get_number_of_connections (((Connections.mk []).connect 1 0).connect 2 0)
      = ((Connections.mk []).connect 1 0).get_number_of_connections :=
  ⟨by simp [Connections.wf],
    (registry_connect_replaces ⟨[]⟩ 0 1 2 (by simp [Connections.wf])).2.2.2.1,
    (registry_connect_replaces ⟨[]⟩ 0 1 2 (by simp [Connections.wf])).2.2.2.2⟩

/-- C6: a valid inbound frame whose action is not the one recognized
built-in action `"server_stats"` is accepted by validation, produces zero
outbound writes, mutates no registry state, and leaves the session in the
`active` state, on either endpoint. -/
theorem unrecognized_action_silent
    (c : Connections) (id : Identity) (f : Frame) (m : WebsocketMessage)
    (hval : model_validate_json f = .ok m)
    (ha : m.action ≠ "server_stats") :
    user_endpoint_step c id (.frame f) = ⟨c, [], .active⟩ ∧
    client_endpoint_step c id (.frame f) = ⟨c, [], .active⟩ := by
  constructor
  · simp [user_endpoint_step, user_endpoint_loop, hval, ha]
  · simp [client_endpoint_step, client_endpoint_loop, hval, ha]

theorem unrecognized_action_silent_witness :
    model_validate_json (.json (.obj [("action", .str "unknown_action")]))
      = .ok { action := "unknown_action" } ∧
    user_endpoint_step ⟨[(0, 5)]⟩ 0 (.frame (.json (.obj [("action", .str "unknown_action")])))
      = ⟨⟨[(0, 5)]⟩, [], .active⟩ :=
  ⟨rfl,
    (unrecognized_action_silent ⟨[(0, 5)]⟩ 0 (.json (.obj [("action", .str "unknown_action")]))
      { action := "unknown_action" } rfl (by decide)).1⟩

/-- C7, counterexample: the frame `{"action": ""}` is accepted by the
code's validation (pydantic's `str` admits the empty string), but the
claimed acceptance condition — which requires `action` to be a present,
NON-EMPTY string — rejects it, so the claimed equivalence fails on this
input. -/
theorem envelope_validation_claim_counterexample :
    validationOk (model_validate_json (.json (.obj [("action", .str "")]))) = true ∧
    claimAcceptance (.json (.obj [("action", .str "")])) = false :=
  ⟨rfl, rfl⟩

/-- C7, amended: envelope validation accepts a raw frame if and only if it
parses as a JSON object whose `action` field is a present string (possibly
empty — the code enforces no non-emptiness) and whose `data` field is
absent, null, or matches one of the declared payload variants (auth-token,
error, stats); absence of `action` is a validation error, and unknown
top-level fields are ignored on decode rather than rejected (the acceptance
condition reads only `action` and `data`). -/
theorem envelope_validation_characterization (f : Frame) :
    validationOk (model_validate_json f) = amendedAcceptance f := by
  cases f with
  | notJson => rfl
  | json v =>
    cases v with
    | obj fields =>
      simp only [model_validate_json, amendedAcceptance, dataFieldOk, validationOk]
      cases ha : lookupField fields "action" with
      | none => rfl
      | some av =>
        cases av with
        | str a =>
          cases hd : lookupField fields "data" with
          | none => rfl
          | some d =>
            have hiso := validateDataField_isSome d
            cases hv : validateDataField d with
            | some dd =>
              rw [hv] at hiso
              simp only [Option.isSome] at hiso
              cases d <;> simp_all
            | none =>
              rw [hv] at hiso
              simp only [Option.isSome] at hiso
              cases d <;> simp_all
        | null => rfl
        | bool b => rfl
        | int n => rfl
        | arr xs => rfl
        | obj f2 => rfl
    | null => rfl
    | bool b => rfl
    | int n => rfl
    | str s => rfl
    | arr xs => rfl

/-- C8: membership changes in the user population never trigger a
broadcast: for every token input, user connect issues no write and its only
registry effect is the insertion (with the connection kept open), and user
disconnect issues no write and its only registry effect is the removal;
user-population stats remain available on demand, as the concrete
`server_stats` request by the sole user (identity 3, handle 9) shows. -/
theorem user_membership_no_broadcast
    (c : Connections) (hnd : Handle) (uid : Identity) (t : Option Frame) :
    on_user_connect c hnd uid t = (c.connect hnd uid, [], true) ∧
    on_user_disconnect c uid = (c.disconnect uid, []) ∧
    user_endpoint_step ⟨[(3, 9)]⟩ 3 (.frame (.json (.obj [("action", .str "server_stats")])))
      = ⟨⟨[(3, 9)]⟩, [(9, { action := "server_stats", data := some (.appStats ⟨1⟩) })], .active⟩ :=
  ⟨rfl, rfl, rfl⟩

/-- C9: every envelope the validation-failure path produces has action
`"error"` and data the error payload carrying the validator's failure
message, and the path's writes are exactly the single `send` of that
envelope to the offending identity, on either endpoint. -/
theorem error_envelope_shape
    (c : Connections) (id : Identity) (f : Frame) (e : String)
    (hval : model_validate_json f = .error e) :
    (user_endpoint_step c id (.frame f)).sent
      = c.send id { action := "error", data := some (.appError ⟨e⟩) } ∧
    (client_endpoint_step c id (.frame f)).sent
      = c.send id { action := "error", data := some (.appError ⟨e⟩) } := by
  constructor
  · simp [user_endpoint_step, user_endpoint_loop, hval, errorMessage]
  · simp [client_endpoint_step, client_endpoint_loop, hval, errorMessage]

theorem error_envelope_shape_witness :
    model_validate_json (.json (.arr []))
      = .error "Input should be a valid dictionary or object" ∧
    (user_endpoint_step ⟨[(0, 5)]⟩ 0 (.frame (.json (.arr [])))).sent
      = Connections.send ⟨[(0, 5)]⟩ 0
          { action := "error",
            data := some (.appError ⟨"Input should be a valid dictionary or object"⟩) } :=
  ⟨rfl,
    (error_envelope_shape ⟨[(0, 5)]⟩ 0 (.json (.arr []))
      "Input should be a valid dictionary or object" rfl).1⟩

/-- C10: on the user endpoint the registration outcome and the subsequent
session behaviour are independent of any credential the caller supplies:
token verification accepts every token (the check that could reject is
unimplemented), two connects differing only in token input are equal — in
particular both register the identity — and every subsequent run of the
session from the resulting registries is identical. -/
theorem user_token_verification_vacuous
    (c : Connections) (hnd : Handle) (uid : Identity) (t1 t2 : Option Frame)
    (evs : List Inbound) :
    verify_websocket_token t1 = true ∧
    on_user_connect c hnd uid t1 = on_user_connect c hnd uid t2 ∧
    (on_user_connect c hnd uid t1).1 = c.connect hnd uid ∧
    user_session_run (on_user_connect c hnd uid t1).1 uid evs
      = user_session_run (on_user_connect c hnd uid t2).1 uid evs :=
  ⟨rfl, rfl, rfl, rfl⟩

end CreateWebApp
